import Mathlib

/-!
# Skinned model and free-look camera

A shallow embedding of `trunk/Model.cpp` and `trunk/Camera.cpp`.

`Model.cpp` is written against headers that are not part of the sources at hand
(`Skeleton.h`, the animation class, the three builders, the render context and the
Direct3D device).  Everything those headers declare is collected in the record `Env`
and every definition below is parametric in it, so the theorems hold for every
implementation of the collaborators.  Each call a method of `Model` makes on a
collaborator is also recorded, in program order, in a list of `Call`s.
-/

namespace Anima

/-! ## Matrices -/

/-- The 4x4 matrix of the import library: sixteen entries `a1 .. d4`, declared (and
stored) row by row. -/
structure AiMatrix4x4 (F : Type) where
  a1 : F
  a2 : F
  a3 : F
  a4 : F
  b1 : F
  b2 : F
  b3 : F
  b4 : F
  c1 : F
  c2 : F
  c3 : F
  c4 : F
  d1 : F
  d2 : F
  d3 : F
  d4 : F
deriving DecidableEq, Repr

/-- The entry `m[r][c]` of an `aiMatrix4x4` (`operator[]` selects the row). -/
def AiMatrix4x4.get {F : Type} (m : AiMatrix4x4 F) (r c : Fin 4) : F :=
  match r, c with
  | 0, 0 => m.a1 | 0, 1 => m.a2 | 0, 2 => m.a3 | 0, 3 => m.a4
  | 1, 0 => m.b1 | 1, 1 => m.b2 | 1, 2 => m.b3 | 1, 3 => m.b4
  | 2, 0 => m.c1 | 2, 1 => m.c2 | 2, 2 => m.c3 | 2, 3 => m.c4
  | 3, 0 => m.d1 | 3, 1 => m.d2 | 3, 2 => m.d3 | 3, 3 => m.d4

/-- The sixteen values of an `aiMatrix4x4` in storage order. -/
def AiMatrix4x4.floats {F : Type} (m : AiMatrix4x4 F) : List F :=
  [m.a1, m.a2, m.a3, m.a4, m.b1, m.b2, m.b3, m.b4,
   m.c1, m.c2, m.c3, m.c4, m.d1, m.d2, m.d3, m.d4]

/-- The in-place `aiMatrix4x4::Transpose`: the six pairs of entries off the diagonal
are swapped. -/
def AiMatrix4x4.Transpose {F : Type} (m : AiMatrix4x4 F) : AiMatrix4x4 F :=
  { a1 := m.a1, a2 := m.b1, a3 := m.c1, a4 := m.d1
    b1 := m.a2, b2 := m.b2, b3 := m.c2, b4 := m.d2
    c1 := m.a3, c2 := m.b3, c3 := m.c3, c4 := m.d3
    d1 := m.a4, d2 := m.b4, d3 := m.c4, d4 := m.d4 }

/-- The payload `data` of `Math::Matrix`: a 4x4 array of values stored row by row. -/
structure MathMatrix (F : Type) where
  m11 : F
  m12 : F
  m13 : F
  m14 : F
  m21 : F
  m22 : F
  m23 : F
  m24 : F
  m31 : F
  m32 : F
  m33 : F
  m34 : F
  m41 : F
  m42 : F
  m43 : F
  m44 : F
deriving DecidableEq, Repr

/-- The entry `root[r][c]` of a `Math::Matrix`. -/
def MathMatrix.get {F : Type} (m : MathMatrix F) (r c : Fin 4) : F :=
  match r, c with
  | 0, 0 => m.m11 | 0, 1 => m.m12 | 0, 2 => m.m13 | 0, 3 => m.m14
  | 1, 0 => m.m21 | 1, 1 => m.m22 | 1, 2 => m.m23 | 1, 3 => m.m24
  | 2, 0 => m.m31 | 2, 1 => m.m32 | 2, 2 => m.m33 | 2, 3 => m.m34
  | 3, 0 => m.m41 | 3, 1 => m.m42 | 3, 2 => m.m43 | 3, 3 => m.m44

/-- The sixteen values of a `Math::Matrix` in storage order. -/
def MathMatrix.floats {F : Type} (m : MathMatrix F) : List F :=
  [m.m11, m.m12, m.m13, m.m14, m.m21, m.m22, m.m23, m.m24,
   m.m31, m.m32, m.m33, m.m34, m.m41, m.m42, m.m43, m.m44]

/-- The call `memcpy( &m[0][0], root.data, sizeof(Math::Matrix) )`: the sixteen values
of `root` land in `m` in storage order. -/
def memcpyMatrix {F : Type} (root : MathMatrix F) : AiMatrix4x4 F :=
  { a1 := root.m11, a2 := root.m12, a3 := root.m13, a4 := root.m14
    b1 := root.m21, b2 := root.m22, b3 := root.m23, b4 := root.m24
    c1 := root.m31, c2 := root.m32, c3 := root.m33, c4 := root.m34
    d1 := root.m41, d2 := root.m42, d3 := root.m43, d4 := root.m44 }

/-! ## The collaborators of `Model` -/

/-- One entry of `mMeshes`: the imported data and the four device handles, `none`
standing for `NULL`. -/
structure Mesh (MeshData Handle : Type) where
  Data : MeshData
  mVertexDeclaration : Option Handle
  mVertexBuffer : Option Handle
  mIndexBuffer : Option Handle
  mEffect : Option Handle
deriving DecidableEq, Repr

/-- Everything `Model.cpp` uses and does not define.  The carrier types come first,
then the constant `Skeleton::MAX_BONES_PER_MESH`, then the member functions of the
skeleton and of the animation, the importer with the three builders, and last the
render context with its device, which is threaded through as a state. -/
structure Env where
  /-- The type `float`. -/
  Scalar : Type
  /-- The element type of `mPoseBuffer`, which is also what `getWorldTransform`
  yields: the assignment in `Update` stores the value it is given. -/
  Transform : Type
  Skeleton : Type
  Animation : Type
  MeshData : Type
  Handle : Type
  Scene : Type
  RenderContext : Type
  MAX_BONES_PER_MESH : Nat
  /-- A default-constructed skeleton. -/
  newSkeleton : Skeleton
  /-- A value-initialised pose entry, as `resize` inserts it. -/
  newTransform : Transform
  getBoneCount : Skeleton → Nat
  getWorldTransform : Skeleton → Nat → Transform
  setLocalTransform : Skeleton → Nat → AiMatrix4x4 Scalar → Skeleton
  animationUpdate : Animation → Scalar → Animation
  evaluatePose : Animation → Skeleton → Skeleton
  /-- The importer: `none` is the null scene. -/
  readFile : String → Option Scene
  /-- The three builders fill the member they are handed; `none` stands for a builder
  that does not return to `load`. -/
  buildSkeleton : Scene → Skeleton → Option Skeleton
  buildAnimations : Scene → List Animation → Option (List Animation)
  buildMeshes : Scene → List (Mesh MeshData Handle) → Option (List (Mesh MeshData Handle))
  /-- The macro `DX_CHECK` applied to a result, the boolean being `FAILED(hr)`: `none`
  when it stops the program, else the context after whatever it reports. -/
  DX_CHECK : RenderContext → Bool → Option RenderContext
  /-- Each `Create...` call gets the context, its argument and the old value of the
  out-parameter, and yields the new context and the new value of the out-parameter;
  for the two buffers the boolean is `FAILED(hr)`. -/
  createVertexDeclaration :
    RenderContext → MeshData → Option Handle → RenderContext × Option Handle
  createVertexBuffer :
    RenderContext → MeshData → Option Handle → RenderContext × Option Handle × Bool
  createIndexBuffer :
    RenderContext → MeshData → Option Handle → RenderContext × Option Handle × Bool
  /-- The call `Lock` on a buffer; the boolean is `FAILED(hr)`, in which case the
  pointer to the locked memory is not set. -/
  lock : RenderContext → Handle → RenderContext × Bool
  /-- The `memcpy` of the vertex data into a locked buffer. -/
  writeVertexData : RenderContext → Handle → MeshData → RenderContext
  /-- The `memcpy` of the index data into a locked buffer. -/
  writeIndexData : RenderContext → Handle → MeshData → RenderContext
  /-- The call `Unlock` on a buffer; the boolean is `FAILED(hr)`. -/
  unlock : RenderContext → Handle → RenderContext × Bool
  /-- The call `D3DXCreateEffectFromFile` with the macro `MAX_BONES_PER_MESH`; the
  boolean is `FAILED(hr) && buf`. -/
  createEffectFromFile :
    RenderContext → Nat → Option Handle → RenderContext × Option Handle × Bool
  /-- The call `Release` on a device object. -/
  release : RenderContext → Handle → RenderContext
  /-- The three `SetRenderState` calls that open `Render`. -/
  setRenderStates : RenderContext → RenderContext
  /-- All device and effect calls `Render` makes for one mesh, given its effect and
  the bone array handed to `SetFloatArray`; `none` when a `DX_CHECK` among them stops
  the program. -/
  drawMesh :
    RenderContext → Mesh MeshData Handle → Handle → List Transform → Option RenderContext
  /-- The two calls that close `Render`: `SetStreamSource` and `SetIndices` with
  `NULL`; `none` when their `DX_CHECK` stops the program. -/
  resetStreams : RenderContext → Option RenderContext

/-- The calls `Model` makes on its collaborators. -/
inductive Call (E : Env) where
  | animationUpdate (dt : E.Scalar)
  | evaluatePose
  | getBoneCount
  | getWorldTransform (i : Nat)
  | setLocalTransform (i : Nat) (m : AiMatrix4x4 E.Scalar)
  | readFile (fileName : String)
  | reportImportFailure
  | buildSkeleton
  | buildAnimations
  | buildMeshes
  | createVertexDeclaration
  | createVertexBuffer
  | fillVertexBuffer
  | createIndexBuffer
  | fillIndexBuffer
  | createEffectFromFile
  | traceEffectError
  | release (h : E.Handle)
  | setRenderStates
  | setBoneTransforms (bones : List E.Transform)
  | drawMesh
  | resetStreams

/-- The data members of `Model`. -/
structure Model (E : Env) where
  mFileName : String
  mIsLoaded : Bool
  mSkeleton : E.Skeleton
  mAnimations : List E.Animation
  mMeshes : List (Mesh E.MeshData E.Handle)
  mPoseBuffer : List E.Transform

/-- The constructor: the pose buffer is resized to `MAX_BONES_PER_MESH` entries. -/
def Model.new (E : Env) (fileName : String) : Model E :=
  { mFileName := fileName
    mIsLoaded := false
    mSkeleton := E.newSkeleton
    mAnimations := []
    mMeshes := []
    mPoseBuffer := List.replicate E.MAX_BONES_PER_MESH E.newTransform }

/-- The loop of `Update`, with `k` iterations left and loop variable `i`:
`mPoseBuffer[i] = mSkeleton.getWorldTransform( i )`.  A write past the end of the
vector has no defined result, which is `none`. -/
def Model.copyPose (E : Env) (skel : E.Skeleton) :
    Nat → Nat → List E.Transform → Option (List E.Transform × List (Call E))
  | 0, _, buf => some (buf, [Call.getBoneCount])
  | k + 1, i, buf =>
    if i < buf.length then
      (Model.copyPose E skel k (i + 1) (buf.set i (E.getWorldTransform skel i))).map
        (fun r => (r.1, Call.getBoneCount :: Call.getWorldTransform i :: r.2))
    else none

/-- The method `Model::Update`.  `front()` of an empty animation list has no defined
result, which is `none`. -/
def Model.Update (E : Env) (m : Model E) (dt : E.Scalar) :
    Option (Model E × List (Call E)) :=
  match m.mAnimations with
  | [] => none
  | a :: rest =>
    let a1 := E.animationUpdate a dt
    let skel := E.evaluatePose a1 m.mSkeleton
    match Model.copyPose E skel (E.getBoneCount skel) 0 m.mPoseBuffer with
    | none => none
    | some (buf, calls) =>
      some ({ m with mAnimations := a1 :: rest, mSkeleton := skel, mPoseBuffer := buf },
            Call.animationUpdate dt :: Call.evaluatePose :: calls)

/-- The calls of the copy loop from index `i` on with `k` iterations left. -/
def copyCalls (E : Env) : Nat → Nat → List (Call E)
  | 0, _ => [Call.getBoneCount]
  | k + 1, i => Call.getBoneCount :: Call.getWorldTransform i :: copyCalls E k (i + 1)


/-- The method `Model::SetRoot`: copy, transpose, hand to the skeleton for bone 0. -/
def Model.SetRoot (E : Env) (m : Model E) (root : MathMatrix E.Scalar) :
    Model E × List (Call E) :=
  let m0 := memcpyMatrix root
  let m1 := m0.Transpose
  ({ m with mSkeleton := E.setLocalTransform m.mSkeleton 0 m1 },
   [Call.setLocalTransform 0 m1])

/-- The block `Lock`, `memcpy`, `Unlock` on the buffer a `Create...` call has just
written to its out-parameter.  `Lock` is called through that pointer, so a `NULL`
buffer has no defined result, and neither has the `memcpy` through the pointer a
failed `Lock` leaves unset; both are `none`, as is a `DX_CHECK` that stops. -/
def fillBuffer (E : Env) (write : E.RenderContext → E.Handle → E.MeshData → E.RenderContext)
    (ctx : E.RenderContext) (buffer : Option E.Handle) (data : E.MeshData) :
    Option E.RenderContext :=
  match buffer with
  | none => none
  | some b =>
    let l := E.lock ctx b
    match E.DX_CHECK l.1 l.2 with
    | none => none
    | some c1 =>
      if l.2 then none
      else
        let u := E.unlock (write c1 b data) b
        E.DX_CHECK u.1 u.2

/-- The body of the loop of `AcquireResources` for one mesh: vertex declaration,
vertex buffer with its data, index buffer with its data, effect. -/
def Model.acquireMesh (E : Env) (ctx : E.RenderContext) (mesh : Mesh E.MeshData E.Handle) :
    Option (E.RenderContext × Mesh E.MeshData E.Handle × List (Call E)) :=
  let r1 := E.createVertexDeclaration ctx mesh.Data mesh.mVertexDeclaration
  let r2 := E.createVertexBuffer r1.1 mesh.Data mesh.mVertexBuffer
  match E.DX_CHECK r2.1 r2.2.2 with
  | none => none
  | some c2 =>
    match fillBuffer E E.writeVertexData c2 r2.2.1 mesh.Data with
    | none => none
    | some c3 =>
      let r4 := E.createIndexBuffer c3 mesh.Data mesh.mIndexBuffer
      match E.DX_CHECK r4.1 r4.2.2 with
      | none => none
      | some c4 =>
        match fillBuffer E E.writeIndexData c4 r4.2.1 mesh.Data with
        | none => none
        | some c5 =>
          let r6 := E.createEffectFromFile c5 E.MAX_BONES_PER_MESH mesh.mEffect
          some (r6.1,
            { Data := mesh.Data, mVertexDeclaration := r1.2, mVertexBuffer := r2.2.1,
              mIndexBuffer := r4.2.1, mEffect := r6.2.1 },
            [Call.createVertexDeclaration, Call.createVertexBuffer, Call.fillVertexBuffer,
             Call.createIndexBuffer, Call.fillIndexBuffer, Call.createEffectFromFile]
              ++ (if r6.2.2 then [Call.traceEffectError] else []))

/-- The loop of `AcquireResources` over the meshes, in order. -/
def Model.acquireMeshes (E : Env) :
    E.RenderContext → List (Mesh E.MeshData E.Handle) →
      Option (E.RenderContext × List (Mesh E.MeshData E.Handle) × List (Call E))
  | ctx, [] => some (ctx, [], [])
  | ctx, mesh :: rest =>
    match Model.acquireMesh E ctx mesh with
    | none => none
    | some r =>
      match Model.acquireMeshes E r.1 rest with
      | none => none
      | some rs => some (rs.1, r.2.1 :: rs.2.1, r.2.2 ++ rs.2.2)

/-- The method `Model::AcquireResources`. -/
def Model.AcquireResources (E : Env) (m : Model E) (ctx : E.RenderContext) :
    Option (Model E × E.RenderContext × List (Call E)) :=
  match Model.acquireMeshes E ctx m.mMeshes with
  | none => none
  | some r => some ({ m with mMeshes := r.2.1 }, r.1, r.2.2)

/-- One of the four blocks `if( h ) { h->Release(); h = NULL; }`. -/
def releaseHandle (E : Env) (ctx : E.RenderContext) (h : Option E.Handle) :
    E.RenderContext × Option E.Handle × List (Call E) :=
  match h with
  | some x => (E.release ctx x, none, [Call.release x])
  | none => (ctx, h, [])

/-- The body of the loop of `ReleaseResources` for one mesh: effect, index buffer,
vertex buffer, vertex declaration, in this order. -/
def Model.releaseMesh (E : Env) (ctx : E.RenderContext) (mesh : Mesh E.MeshData E.Handle) :
    E.RenderContext × Mesh E.MeshData E.Handle × List (Call E) :=
  let e := releaseHandle E ctx mesh.mEffect
  let i := releaseHandle E e.1 mesh.mIndexBuffer
  let v := releaseHandle E i.1 mesh.mVertexBuffer
  let d := releaseHandle E v.1 mesh.mVertexDeclaration
  (d.1,
   { Data := mesh.Data, mVertexDeclaration := d.2.1, mVertexBuffer := v.2.1,
     mIndexBuffer := i.2.1, mEffect := e.2.1 },
   e.2.2 ++ i.2.2 ++ v.2.2 ++ d.2.2)

/-- The loop of `ReleaseResources` over the meshes, in order. -/
def Model.releaseMeshes (E : Env) :
    E.RenderContext → List (Mesh E.MeshData E.Handle) →
      E.RenderContext × List (Mesh E.MeshData E.Handle) × List (Call E)
  | ctx, [] => (ctx, [], [])
  | ctx, mesh :: rest =>
    let r := Model.releaseMesh E ctx mesh
    let rs := Model.releaseMeshes E r.1 rest
    (rs.1, r.2.1 :: rs.2.1, r.2.2 ++ rs.2.2)

/-- The method `Model::ReleaseResources`. -/
def Model.ReleaseResources (E : Env) (m : Model E) (ctx : E.RenderContext) :
    Model E × E.RenderContext × List (Call E) :=
  let r := Model.releaseMeshes E ctx m.mMeshes
  ({ m with mMeshes := r.2.1 }, r.1, r.2.2)

/-- The method `Model::load`: the result, the model, the context and the calls.  A
builder that does not return and an undefined step of `AcquireResources` leave `load`
without a result, which is `none`. -/
def Model.load (E : Env) (m : Model E) (ctx : E.RenderContext) :
    Option (Bool × Model E × E.RenderContext × List (Call E)) :=
  match E.readFile m.mFileName with
  | none => some (false, m, ctx, [Call.readFile m.mFileName, Call.reportImportFailure])
  | some scene =>
    match E.buildSkeleton scene m.mSkeleton with
    | none => none
    | some skeleton =>
      match E.buildAnimations scene m.mAnimations with
      | none => none
      | some animations =>
        match E.buildMeshes scene m.mMeshes with
        | none => none
        | some meshes =>
          match Model.AcquireResources E
              { m with mSkeleton := skeleton, mAnimations := animations, mMeshes := meshes }
              ctx with
          | none => none
          | some r =>
            some (true, r.1, r.2.1,
              Call.readFile m.mFileName :: Call.buildSkeleton :: Call.buildAnimations ::
                Call.buildMeshes :: r.2.2)

/-- The array `SetFloatArray` reads in `Render`: `12 * getBoneCount()` floats from
`mPoseBuffer[0]` on, that is the first `n` entries of twelve floats each.  A read past
the end of the vector has no defined result, which is `none`. -/
def poseUpload {T : Type} (buf : List T) (n : Nat) : Option (List T) :=
  if n ≤ buf.length then some (buf.take n) else none

/-- The loop of `Render` over the meshes.  A mesh whose effect is `NULL` cannot be
drawn: the calls through `mesh.mEffect` have no defined result. -/
def Model.renderMeshes (E : Env) (m : Model E) :
    E.RenderContext → List (Mesh E.MeshData E.Handle) →
      Option (E.RenderContext × List (Call E))
  | ctx, [] => some (ctx, [])
  | ctx, mesh :: rest =>
    match mesh.mEffect with
    | none => none
    | some fx =>
      match poseUpload m.mPoseBuffer (E.getBoneCount m.mSkeleton) with
      | none => none
      | some bones =>
        match E.drawMesh ctx mesh fx bones with
        | none => none
        | some c1 =>
          (Model.renderMeshes E m c1 rest).map
            (fun r => (r.1, Call.getBoneCount :: Call.setBoneTransforms bones ::
              Call.drawMesh :: r.2))

/-- The method `Model::Render`; no data member is assigned, so the model comes back
as it went in. -/
def Model.Render (E : Env) (m : Model E) (ctx : E.RenderContext) :
    Option (Model E × E.RenderContext × List (Call E)) :=
  match Model.renderMeshes E m (E.setRenderStates ctx) m.mMeshes with
  | none => none
  | some r =>
    (E.resetStreams r.1).map
      (fun c => (m, c, Call.setRenderStates :: (r.2 ++ [Call.resetStreams])))

/-- The models a program can hold: a constructed model and whatever the public
methods make of it. -/
inductive Model.Reachable (E : Env) : Model E → Prop
  | new (fileName : String) : Model.Reachable E (Model.new E fileName)
  | SetRoot (m : Model E) (root : MathMatrix E.Scalar) :
      Model.Reachable E m → Model.Reachable E (Model.SetRoot E m root).1
  | load (m : Model E) (ctx : E.RenderContext)
      (r : Bool × Model E × E.RenderContext × List (Call E)) :
      Model.Reachable E m → Model.load E m ctx = some r → Model.Reachable E r.2.1
  | Update (m : Model E) (dt : E.Scalar) (r : Model E × List (Call E)) :
      Model.Reachable E m → Model.Update E m dt = some r → Model.Reachable E r.1
  | Render (m : Model E) (ctx : E.RenderContext)
      (r : Model E × E.RenderContext × List (Call E)) :
      Model.Reachable E m → Model.Render E m ctx = some r → Model.Reachable E r.1
  | AcquireResources (m : Model E) (ctx : E.RenderContext)
      (r : Model E × E.RenderContext × List (Call E)) :
      Model.Reachable E m → Model.AcquireResources E m ctx = some r → Model.Reachable E r.1
  | ReleaseResources (m : Model E) (ctx : E.RenderContext) :
      Model.Reachable E m → Model.Reachable E (Model.ReleaseResources E m ctx).1

/-- The three coordinates of a `Math::Vector`. -/
structure Vector (R : Type) where
  x : R
  y : R
  z : R
deriving DecidableEq, Repr

/-- Modelled from the spec: `Math::Vector::Cross` is declared in `Math.h`, which is not
among the sources; `a.Cross( b )` is the cross product `a x b`, the left vector being
`forward x up`. -/
def Vector.Cross {R : Type} [Mul R] [Sub R] (a b : Vector R) : Vector R :=
  { x := a.y * b.z - a.z * b.y
    y := a.z * b.x - a.x * b.z
    z := a.x * b.y - a.y * b.x }

/-- Modelled from the spec: `Math::Vector::Scale` is declared in `Math.h`, which is not
among the sources; it multiplies each coordinate by the factor. -/
def Vector.Scale {R : Type} [Mul R] (a : Vector R) (k : R) : Vector R :=
  { x := a.x * k, y := a.y * k, z := a.z * k }

/-- Modelled from the spec: the operators `+` and `+=` of `Math::Vector` are declared in
`Math.h`, which is not among the sources; they add coordinate by coordinate. -/
def Vector.add {R : Type} [Add R] (a b : Vector R) : Vector R :=
  { x := a.x + b.x, y := a.y + b.y, z := a.z + b.z }

/-- The dot product, used to state that the basis is orthonormal. -/
def Vector.dot {R : Type} [Mul R] [Add R] (a b : Vector R) : R :=
  a.x * b.x + a.y * b.y + a.z * b.z

/-- The mask `KEY_DOWN`. -/
def KEY_DOWN : Nat := 0x8000

/-- The constant `MOVEMENT_SPEED`. -/
def MOVEMENT_SPEED {R : Type} [Field R] : R := 1

/-- The constant `ROTATION_SPEED`. -/
def ROTATION_SPEED {R : Type} [Field R] : R := 1.5

/-- What one call of `Camera::update` reads from outside: the mouse delta of
`mInput.GetMouse()` and the four values of `GetKeyState`, each given by its bit
pattern. -/
structure Input (R : Type) where
  mouseX : R
  mouseY : R
  keyUp : Nat
  keyDown : Nat
  keyLeft : Nat
  keyRight : Nat

/-- The data members of `Camera` that `update` reads or writes, and the projection. -/
structure Camera (R View : Type) where
  mAzimuth : R
  mZenith : R
  mPosition : Vector R
  mView : View
  mProjection : View

/-- The forward vector for the angles `A` and `Z`. -/
def Camera.forward {R : Type} [Field R] (cos sin : R → R) (A Z : R) : Vector R :=
  { x := cos A * sin Z, y := cos Z, z := sin A * sin Z }

/-- The up vector for the angles `A` and `Z`. -/
def Camera.up {R : Type} [Field R] (cos sin : R → R) (A Z : R) : Vector R :=
  { x := -cos A * cos Z, y := sin Z, z := -sin A * cos Z }

/-- The method `Camera::update` over a field `R` with its cosine and sine; the look-at
construction of `Math.h` is a parameter. -/
def Camera.update {R View : Type} [Field R] (cos sin : R → R)
    (LookAt : Vector R → Vector R → Vector R → View)
    (cam : Camera R View) (input : Input R) (dt : R) : Camera R View :=
  let _up := input.keyUp &&& KEY_DOWN
  let _down := input.keyDown &&& KEY_DOWN
  let _left := input.keyLeft &&& KEY_DOWN
  let _right := input.keyRight &&& KEY_DOWN
  let dAzimuth := -input.mouseX * dt * ROTATION_SPEED
  let dZenith := input.mouseY * dt * ROTATION_SPEED
  let mAzimuth := cam.mAzimuth + dAzimuth
  let mZenith := cam.mZenith + dZenith
  let forward := Camera.forward cos sin mAzimuth mZenith
  let up := Camera.up cos sin mAzimuth mZenith
  let left := forward.Cross up
  let s := (left.Scale (if _left ≠ 0 then 1 else (if _right ≠ 0 then -1 else 0))).Scale
    (dt * MOVEMENT_SPEED)
  let f := (forward.Scale (if _up ≠ 0 then 1 else (if _down ≠ 0 then -1 else 0))).Scale
    (dt * MOVEMENT_SPEED)
  let mPosition := cam.mPosition.add (s.add f)
  { cam with
    mAzimuth := mAzimuth
    mZenith := mZenith
    mPosition := mPosition
    mView := LookAt mPosition (mPosition.add forward) up }

/-- The strafe factor: `+1` when the left key is down, `-1` when only the right key is,
`0` otherwise. -/
def strafeSign {R : Type} [Field R] (leftDown rightDown : Bool) : R :=
  if leftDown then 1 else if rightDown then -1 else 0

/-- A key is down when the high-order bit of its `GetKeyState` value is set. -/
def keyIsDown (k : Nat) : Bool := decide (k &&& 0x8000 ≠ 0)

/-! ## A small instance to run the definitions on -/

/-- The identity matrix over the integers. -/
def demoIdentity : AiMatrix4x4 Int :=
  { a1 := 1, a2 := 0, a3 := 0, a4 := 0
    b1 := 0, b2 := 1, b3 := 0, b4 := 0
    c1 := 0, c2 := 0, c3 := 1, c4 := 0
    d1 := 0, d2 := 0, d3 := 0, d4 := 1 }

/-- A tiny implementation of the collaborators.  A skeleton is the list of the local
transforms of its bones, none of which has a parent, so the world transform of a bone
is its local transform; an animation is its playback time, and evaluating it writes
the time into the entry `a4` of every bone; a scene is its number of bones; the render
context is a counter that hands out the next free handle and that every `Release`
moves on by a hundred times the handle plus one. -/
@[reducible]
def demoEnv (maxBones : Nat) : Env where
  Scalar := Int
  Transform := AiMatrix4x4 Int
  Skeleton := List (AiMatrix4x4 Int)
  Animation := Int
  MeshData := Nat
  Handle := Nat
  Scene := Nat
  RenderContext := Nat
  MAX_BONES_PER_MESH := maxBones
  newSkeleton := []
  newTransform := demoIdentity
  getBoneCount := fun s => s.length
  getWorldTransform := fun s i => s.getD i demoIdentity
  setLocalTransform := fun s i m => s.set i m
  animationUpdate := fun a dt => a + dt
  evaluatePose := fun a s => s.map (fun b => { b with a4 := a })
  readFile := fun name => if name.length = 0 then none else some name.length
  buildSkeleton := fun n _ => some (List.replicate n demoIdentity)
  buildAnimations := fun _ _ => some [0]
  buildMeshes := fun n _ =>
    some [{ Data := n, mVertexDeclaration := none, mVertexBuffer := none,
            mIndexBuffer := none, mEffect := none }]
  DX_CHECK := fun ctx _ => some ctx
  createVertexDeclaration := fun ctx _ _ => (ctx + 1, some ctx)
  createVertexBuffer := fun ctx _ _ => (ctx + 1, some ctx, false)
  createIndexBuffer := fun ctx _ _ => (ctx + 1, some ctx, false)
  lock := fun ctx _ => (ctx, false)
  writeVertexData := fun ctx _ _ => ctx
  writeIndexData := fun ctx _ _ => ctx
  unlock := fun ctx _ => (ctx, false)
  createEffectFromFile := fun ctx _ _ => (ctx + 1, some ctx, false)
  release := fun ctx h => ctx + 100 * (h + 1)
  setRenderStates := fun ctx => ctx
  drawMesh := fun ctx _ _ _ => some ctx
  resetStreams := fun ctx => some ctx

/-- A loaded model of `demoEnv 2` with one bone, one animation at time `0`, no mesh and
the given pose buffer. -/
def demoModel (buf : List (AiMatrix4x4 Int)) : Model (demoEnv 2) :=
  { mFileName := "model.dae"
    mIsLoaded := false
    mSkeleton := [demoIdentity]
    mAnimations := [(0 : Int)]
    mMeshes := []
    mPoseBuffer := buf }

/-- A matrix with sixteen different entries. -/
def demoRoot : MathMatrix Int :=
  { m11 := 11, m12 := 12, m13 := 13, m14 := 14
    m21 := 21, m22 := 22, m23 := 23, m24 := 24
    m31 := 31, m32 := 32, m33 := 33, m34 := 34
    m41 := 41, m42 := 42, m43 := 43, m44 := 44 }

/-- The handles of a mesh that are not `NULL`, in the order in which
`ReleaseResources` visits them. -/
def Mesh.handles {MeshData Handle : Type} (mesh : Mesh MeshData Handle) : List Handle :=
  mesh.mEffect.toList ++ mesh.mIndexBuffer.toList ++ mesh.mVertexBuffer.toList
    ++ mesh.mVertexDeclaration.toList

/-- The handles of a list of meshes that are not `NULL`, mesh by mesh. -/
def heldHandles {MeshData Handle : Type} : List (Mesh MeshData Handle) → List Handle
  | [] => []
  | mesh :: rest => mesh.handles ++ heldHandles rest

/-- All four handles of the mesh are `NULL`. -/
def Mesh.allNull {MeshData Handle : Type} (mesh : Mesh MeshData Handle) : Prop :=
  mesh.mEffect = none ∧ mesh.mIndexBuffer = none ∧ mesh.mVertexBuffer = none ∧
    mesh.mVertexDeclaration = none

/-- A model of `demoEnv 2` with two meshes that hold five handles between them. -/
def demoMeshModel : Model (demoEnv 2) :=
  { mFileName := "model.dae"
    mIsLoaded := false
    mSkeleton := [demoIdentity]
    mAnimations := [(0 : Int)]
    mMeshes :=
      [{ Data := 7, mVertexDeclaration := some 10, mVertexBuffer := some 11,
         mIndexBuffer := none, mEffect := some 13 },
       { Data := 8, mVertexDeclaration := none, mVertexBuffer := some 21,
         mIndexBuffer := some 22, mEffect := none }]
    mPoseBuffer := [demoIdentity, demoIdentity] }

/-- A model of `demoEnv 2` with two bones. -/
def demoTwoBones : Model (demoEnv 2) :=
  { mFileName := "model.dae"
    mIsLoaded := false
    mSkeleton := [demoIdentity, demoIdentity]
    mAnimations := [(0 : Int)]
    mMeshes := []
    mPoseBuffer := [demoIdentity, demoIdentity] }

/-- The model of `demoEnv 4` after `load` from a scene of three bones. -/
def demoLoaded : Model (demoEnv 4) :=
  { mFileName := "abc"
    mIsLoaded := false
    mSkeleton := [demoIdentity, demoIdentity, demoIdentity]
    mAnimations := [(0 : Int)]
    mMeshes :=
      [{ Data := 3, mVertexDeclaration := some 0, mVertexBuffer := some 1,
         mIndexBuffer := some 2, mEffect := some 3 }]
    mPoseBuffer := [demoIdentity, demoIdentity, demoIdentity, demoIdentity] }

/-- The collaborators of `demoEnv` with a device that creates no vertex buffer. -/
@[reducible]
def failEnv (maxBones : Nat) : Env :=
  { demoEnv maxBones with createVertexBuffer := fun ctx _ _ => (ctx, none, true) }

/-! ## Lemmas on the copy loop -/

theorem copyPose_spec (E : Env) (skel : E.Skeleton) (k : Nat) :
    ∀ (i : Nat) (buf : List E.Transform), i + k ≤ buf.length →
      ∃ out, Model.copyPose E skel k i buf = some (out, copyCalls E k i) ∧
        out.length = buf.length ∧
        (∀ j, i ≤ j → j < i + k → out[j]? = some (E.getWorldTransform skel j)) ∧
        (∀ j, (j < i ∨ i + k ≤ j) → out[j]? = buf[j]?) := by
  induction k with
  | zero =>
    intro i buf _
    exact ⟨buf, rfl, rfl, fun j h1 h2 => by omega, fun j _ => rfl⟩
  | succ k ih =>
    intro i buf h
    have hi : i < buf.length := by omega
    obtain ⟨out, h1, h2, h3, h4⟩ :=
      ih (i + 1) (buf.set i (E.getWorldTransform skel i)) (by simp; omega)
    refine ⟨out, ?_, ?_, ?_, ?_⟩
    · simp [Model.copyPose, hi, h1, copyCalls]
    · simpa using h2
    · intro j hj1 hj2
      by_cases hji : j = i
      · subst hji
        rw [h4 j (Or.inl (by omega))]
        simp [hi]
      · exact h3 j (by omega) (by omega)
    · intro j hj
      rw [h4 j (by omega)]
      have : i ≠ j := by omega
      simp [List.getElem?_set, this]

theorem copyPose_none (E : Env) (skel : E.Skeleton) (k : Nat) :
    ∀ (i : Nat) (buf : List E.Transform), buf.length < i + k → 0 < k →
      Model.copyPose E skel k i buf = none := by
  induction k with
  | zero => intro i buf _ h; omega
  | succ k ih =>
    intro i buf h _
    by_cases hi : i < buf.length
    · have hk : 0 < k := by omega
      simp [Model.copyPose, hi, ih (i + 1) (buf.set i (E.getWorldTransform skel i))
        (by simp; omega) hk]
    · simp [Model.copyPose, hi]


theorem mem_copyCalls_index (E : Env) (k : Nat) :
    ∀ i j : Nat, Call.getWorldTransform j ∈ copyCalls E k i → i ≤ j ∧ j < i + k := by
  induction k with
  | zero => intro i j h; simp [copyCalls] at h
  | succ k ih =>
    intro i j h
    simp only [copyCalls, List.mem_cons] at h
    rcases h with h | h | h
    · cases h
    · cases h; omega
    · have := ih (i + 1) j h
      omega

/-- What `Update` does when the front animation exists and the bones fit in the
buffer: `n` is the bone count of the skeleton as `EvaluatePose` leaves it. -/
theorem Update_eq_some (E : Env) (m : Model E) (dt : E.Scalar)
    (a : E.Animation) (rest : List E.Animation)
    (hanim : m.mAnimations = a :: rest)
    (hfit : E.getBoneCount (E.evaluatePose (E.animationUpdate a dt) m.mSkeleton)
      ≤ m.mPoseBuffer.length) :
    ∃ out,
      Model.Update E m dt =
        some ({ m with
                mAnimations := E.animationUpdate a dt :: rest
                mSkeleton := E.evaluatePose (E.animationUpdate a dt) m.mSkeleton
                mPoseBuffer := out },
              Call.animationUpdate dt :: Call.evaluatePose ::
                copyCalls E
                  (E.getBoneCount (E.evaluatePose (E.animationUpdate a dt) m.mSkeleton)) 0) ∧
      out.length = m.mPoseBuffer.length ∧
      (∀ j, j < E.getBoneCount (E.evaluatePose (E.animationUpdate a dt) m.mSkeleton) →
        out[j]? = some (E.getWorldTransform
          (E.evaluatePose (E.animationUpdate a dt) m.mSkeleton) j)) ∧
      (∀ j, E.getBoneCount (E.evaluatePose (E.animationUpdate a dt) m.mSkeleton) ≤ j →
        out[j]? = m.mPoseBuffer[j]?) := by
  obtain ⟨out, h1, h2, h3, h4⟩ :=
    copyPose_spec E (E.evaluatePose (E.animationUpdate a dt) m.mSkeleton)
      (E.getBoneCount (E.evaluatePose (E.animationUpdate a dt) m.mSkeleton)) 0
      m.mPoseBuffer (by omega)
  refine ⟨out, ?_, h2, ?_, ?_⟩
  · simp [Model.Update, hanim, h1]
  · intro j hj
    exact h3 j (Nat.zero_le j) (by omega)
  · intro j hj
    exact h4 j (Or.inr (by omega))

/-- C1: for a model whose animation list is `a :: rest`, whose pose buffer has
`MAX_BONES_PER_MESH` entries and whose skeleton has `n <= MAX_BONES_PER_MESH` bones
(a count the pose evaluation keeps), `Update dt` returns, and afterwards the front
animation is `a` advanced by `dt`, the skeleton is the old one with that advanced
animation evaluated into it, and `mPoseBuffer[i]` is `getWorldTransform(i)` of that
skeleton for every `i < n`.  The calls come in the order advance, evaluate, copy. -/
theorem Update_pose_eq_world (E : Env) (m : Model E) (dt : E.Scalar)
    (a : E.Animation) (rest : List E.Animation)
    (hanim : m.mAnimations = a :: rest)
    (hbuf : m.mPoseBuffer.length = E.MAX_BONES_PER_MESH)
    (hn : E.getBoneCount m.mSkeleton ≤ E.MAX_BONES_PER_MESH)
    (hkeep : E.getBoneCount (E.evaluatePose (E.animationUpdate a dt) m.mSkeleton)
      = E.getBoneCount m.mSkeleton) :
    ∃ r, Model.Update E m dt = some r ∧
      r.1.mAnimations = E.animationUpdate a dt :: rest ∧
      r.1.mSkeleton = E.evaluatePose (E.animationUpdate a dt) m.mSkeleton ∧
      (∀ i, i < E.getBoneCount m.mSkeleton →
        r.1.mPoseBuffer[i]? =
          some (E.getWorldTransform
            (E.evaluatePose (E.animationUpdate a dt) m.mSkeleton) i)) ∧
      r.2 = Call.animationUpdate dt :: Call.evaluatePose ::
        copyCalls E (E.getBoneCount m.mSkeleton) 0 := by
  obtain ⟨out, h1, _, h3, _⟩ := Update_eq_some E m dt a rest hanim (by omega)
  refine ⟨_, h1, rfl, rfl, ?_, ?_⟩
  · intro i hi
    exact h3 i (by omega)
  · simp [hkeep]

/-- The theorem of C1 at the one-bone model of `demoEnv 2` with time step `1`. -/
theorem Update_pose_eq_world_witness :
    ∃ r, Model.Update (demoEnv 2) (demoModel [demoIdentity, demoIdentity]) (1 : Int) = some r ∧
      r.1.mAnimations = [(1 : Int)] ∧
      r.1.mSkeleton = [{ demoIdentity with a4 := 1 }] ∧
      (∀ i, i < 1 →
        r.1.mPoseBuffer[i]? =
          some ((demoEnv 2).getWorldTransform [{ demoIdentity with a4 := 1 }] i)) ∧
      r.2 = Call.animationUpdate (1 : Int) :: Call.evaluatePose :: copyCalls (demoEnv 2) 1 0 :=
  Update_pose_eq_world (demoEnv 2) (demoModel [demoIdentity, demoIdentity]) (1 : Int) (0 : Int) []
    rfl rfl (by decide) rfl

/-- C2, as stated, fails: two runs of `Update` on the one-bone model of `demoEnv 2`
that differ only in entry `1` of the initial pose buffer both return, and their pose
buffers still differ in entry `1`, which `Update` never writes. -/
theorem Update_full_overwrite_counterexample :
    (Model.Update (demoEnv 2) (demoModel [demoIdentity, demoIdentity]) (1 : Int)).map
        (fun r => r.1.mPoseBuffer)
      = some [{ demoIdentity with a4 := 1 }, demoIdentity] ∧
    (Model.Update (demoEnv 2) (demoModel [demoIdentity, memcpyMatrix demoRoot]) (1 : Int)).map
        (fun r => r.1.mPoseBuffer)
      = some [{ demoIdentity with a4 := 1 }, memcpyMatrix demoRoot] ∧
    (Model.Update (demoEnv 2) (demoModel [demoIdentity, demoIdentity]) (1 : Int)).map
        (fun r => r.1.mPoseBuffer)
      ≠ (Model.Update (demoEnv 2) (demoModel [demoIdentity, memcpyMatrix demoRoot]) (1 : Int)).map
        (fun r => r.1.mPoseBuffer) := by
  refine ⟨rfl, rfl, ?_⟩
  decide

/-- C2, amended: `Update` writes the entries below the bone count `n` of the evaluated
skeleton and no other.  Two runs that differ only in the initial pose buffer (of equal
length at least `n`) both return, their pose buffers agree at every index below `n`,
each keeps its own initial entry at every index from `n` on, and animations, skeleton
and calls are the same in both. -/
theorem Update_overwrites_bone_entries (E : Env) (m : Model E) (dt : E.Scalar)
    (a : E.Animation) (rest : List E.Animation) (buf1 buf2 : List E.Transform)
    (hanim : m.mAnimations = a :: rest)
    (hlen : buf1.length = buf2.length)
    (hfit : E.getBoneCount (E.evaluatePose (E.animationUpdate a dt) m.mSkeleton)
      ≤ buf1.length) :
    ∃ r1 r2,
      Model.Update E { m with mPoseBuffer := buf1 } dt = some r1 ∧
      Model.Update E { m with mPoseBuffer := buf2 } dt = some r2 ∧
      (∀ i, i < E.getBoneCount (E.evaluatePose (E.animationUpdate a dt) m.mSkeleton) →
        r1.1.mPoseBuffer[i]? = r2.1.mPoseBuffer[i]?) ∧
      (∀ i, E.getBoneCount (E.evaluatePose (E.animationUpdate a dt) m.mSkeleton) ≤ i →
        r1.1.mPoseBuffer[i]? = buf1[i]? ∧ r2.1.mPoseBuffer[i]? = buf2[i]?) ∧
      r1.1.mPoseBuffer.length = buf1.length ∧
      r2.1.mPoseBuffer.length = buf2.length ∧
      r1.1.mAnimations = r2.1.mAnimations ∧
      r1.1.mSkeleton = r2.1.mSkeleton ∧
      r1.2 = r2.2 := by
  obtain ⟨out1, h1, l1, w1, k1⟩ :=
    Update_eq_some E { m with mPoseBuffer := buf1 } dt a rest hanim hfit
  obtain ⟨out2, h2, l2, w2, k2⟩ :=
    Update_eq_some E { m with mPoseBuffer := buf2 } dt a rest hanim (by simpa [hlen] using hfit)
  refine ⟨_, _, h1, h2, ?_, ?_, l1, l2, rfl, rfl, rfl⟩
  · intro i hi
    exact (w1 i hi).trans (w2 i hi).symm
  · intro i hi
    exact ⟨k1 i hi, k2 i hi⟩

/-- The theorem of C2, amended, at the one-bone model of `demoEnv 2` and two buffers
that differ in entry `1`. -/
theorem Update_overwrites_bone_entries_witness :
    ∃ r1 r2,
      Model.Update (demoEnv 2) (demoModel [demoIdentity, demoIdentity]) (1 : Int)
        = some r1 ∧
      Model.Update (demoEnv 2) (demoModel [demoIdentity, memcpyMatrix demoRoot]) (1 : Int)
        = some r2 ∧
      (∀ i, i < 1 → r1.1.mPoseBuffer[i]? = r2.1.mPoseBuffer[i]?) ∧
      (∀ i, 1 ≤ i →
        r1.1.mPoseBuffer[i]? = [demoIdentity, demoIdentity][i]? ∧
        r2.1.mPoseBuffer[i]? = [demoIdentity, memcpyMatrix demoRoot][i]?) ∧
      r1.1.mPoseBuffer.length = 2 ∧
      r2.1.mPoseBuffer.length = 2 ∧
      r1.1.mAnimations = r2.1.mAnimations ∧
      r1.1.mSkeleton = r2.1.mSkeleton ∧
      r1.2 = r2.2 :=
  Update_overwrites_bone_entries (demoEnv 2) (demoModel []) (1 : Int) (0 : Int) []
    [demoIdentity, demoIdentity] [demoIdentity, memcpyMatrix demoRoot] rfl rfl (by decide)

/-! ## Loading -/

/-- Whatever `AcquireResources` returns, only the meshes of the model differ. -/
theorem AcquireResources_fields (E : Env) (m : Model E) (ctx : E.RenderContext)
    (r : Model E × E.RenderContext × List (Call E))
    (h : Model.AcquireResources E m ctx = some r) :
    r.1.mSkeleton = m.mSkeleton ∧ r.1.mAnimations = m.mAnimations ∧
      r.1.mPoseBuffer = m.mPoseBuffer := by
  unfold Model.AcquireResources at h
  split at h
  · cases h
  · cases h
    exact ⟨rfl, rfl, rfl⟩

/-- C4: when the importer yields no scene for `mFileName`, `load` returns `false`, the
model (skeleton, animations, meshes, pose buffer and all) and the render context are
exactly as before, and the only calls made are the import and the failure report: no
builder runs and no device resource is created. -/
theorem load_null_scene (E : Env) (m : Model E) (ctx : E.RenderContext)
    (h : E.readFile m.mFileName = none) :
    Model.load E m ctx
      = some (false, m, ctx, [Call.readFile m.mFileName, Call.reportImportFailure]) ∧
    (∀ r, Model.load E m ctx = some r →
      r.1 = false ∧ r.2.1 = m ∧ r.2.2.1 = ctx ∧
      Call.buildSkeleton ∉ r.2.2.2 ∧
      Call.buildAnimations ∉ r.2.2.2 ∧
      Call.buildMeshes ∉ r.2.2.2 ∧
      Call.createVertexDeclaration ∉ r.2.2.2 ∧
      Call.createVertexBuffer ∉ r.2.2.2 ∧
      Call.createIndexBuffer ∉ r.2.2.2 ∧
      Call.createEffectFromFile ∉ r.2.2.2) := by
  have h0 : Model.load E m ctx
      = some (false, m, ctx, [Call.readFile m.mFileName, Call.reportImportFailure]) := by
    simp [Model.load, h]
  refine ⟨h0, ?_⟩
  intro r hr
  rw [h0] at hr
  cases hr
  simp

/-- The theorem of C4 at a model of `demoEnv 2` with the empty file name, for which
the importer of `demoEnv` yields no scene. -/
theorem load_null_scene_witness :
    Model.load (demoEnv 2) (Model.new (demoEnv 2) "") (5 : Nat)
      = some (false, Model.new (demoEnv 2) "", (5 : Nat),
          [Call.readFile "", Call.reportImportFailure]) :=
  (load_null_scene (demoEnv 2) (Model.new (demoEnv 2) "") (5 : Nat) rfl).1

/-- On a device that creates no vertex buffer `load` has no result: `Lock` is called
through the `NULL` buffer. -/
theorem load_device_failure_demo :
    Model.load (failEnv 2) (Model.new (failEnv 2) "abc") (5 : Nat) = none :=
  rfl

/-! ## Releasing the device resources -/

theorem releaseHandle_spec (E : Env) (ctx : E.RenderContext) (h : Option E.Handle) :
    (releaseHandle E ctx h).2.1 = none ∧
    (releaseHandle E ctx h).2.2 = h.toList.map Call.release := by
  cases h <;> simp [releaseHandle]

theorem releaseHandle_context (E : Env) (ctx : E.RenderContext) (h : Option E.Handle) :
    (releaseHandle E ctx h).1 = h.toList.foldl E.release ctx := by
  cases h <;> simp [releaseHandle]

theorem releaseMesh_context (E : Env) (ctx : E.RenderContext)
    (mesh : Mesh E.MeshData E.Handle) :
    (Model.releaseMesh E ctx mesh).1 = mesh.handles.foldl E.release ctx := by
  simp only [Model.releaseMesh, Mesh.handles, List.foldl_append, releaseHandle_context]

theorem releaseMeshes_context (E : Env) (meshes : List (Mesh E.MeshData E.Handle)) :
    ∀ ctx : E.RenderContext,
      (Model.releaseMeshes E ctx meshes).1 = (heldHandles meshes).foldl E.release ctx := by
  induction meshes with
  | nil => intro ctx; rfl
  | cons mesh rest ih =>
    intro ctx
    simp only [Model.releaseMeshes, heldHandles, List.foldl_append, ih, releaseMesh_context]

theorem releaseHandle_none (E : Env) (ctx : E.RenderContext) :
    releaseHandle E ctx none = (ctx, none, []) := rfl

theorem releaseMesh_spec (E : Env) (ctx : E.RenderContext)
    (mesh : Mesh E.MeshData E.Handle) :
    (Model.releaseMesh E ctx mesh).2.1.allNull ∧
    (Model.releaseMesh E ctx mesh).2.1.Data = mesh.Data ∧
    (Model.releaseMesh E ctx mesh).2.2 = mesh.handles.map Call.release := by
  simp [Model.releaseMesh, Mesh.allNull, Mesh.handles, releaseHandle_spec]

theorem releaseMesh_allNull (E : Env) (ctx : E.RenderContext)
    (mesh : Mesh E.MeshData E.Handle) (h : mesh.allNull) :
    Model.releaseMesh E ctx mesh = (ctx, mesh, []) := by
  obtain ⟨data, vd, vb, ib, fx⟩ := mesh
  obtain ⟨h1, h2, h3, h4⟩ := h
  simp only at h1 h2 h3 h4
  subst h1 h2 h3 h4
  rfl

theorem releaseMeshes_spec (E : Env) (meshes : List (Mesh E.MeshData E.Handle)) :
    ∀ ctx : E.RenderContext,
      (∀ mesh ∈ (Model.releaseMeshes E ctx meshes).2.1, mesh.allNull) ∧
      (Model.releaseMeshes E ctx meshes).2.1.length = meshes.length ∧
      (Model.releaseMeshes E ctx meshes).2.1.map (fun x => x.Data)
        = meshes.map (fun x => x.Data) ∧
      (Model.releaseMeshes E ctx meshes).2.2 = (heldHandles meshes).map Call.release := by
  induction meshes with
  | nil => intro ctx; simp [Model.releaseMeshes, heldHandles]
  | cons mesh rest ih =>
    intro ctx
    obtain ⟨h1, h2, h3⟩ := releaseMesh_spec E ctx mesh
    obtain ⟨i1, i2, i3, i4⟩ := ih (Model.releaseMesh E ctx mesh).1
    refine ⟨?_, ?_, ?_, ?_⟩
    · intro x hx
      simp only [Model.releaseMeshes, List.mem_cons] at hx
      rcases hx with hx | hx
      · rw [hx]; exact h1
      · exact i1 x hx
    · simp [Model.releaseMeshes, i2]
    · simp only [Model.releaseMeshes, List.map_cons, h2]
      rw [i3]
    · simp only [Model.releaseMeshes, heldHandles, List.map_append, h3]
      rw [i4]

theorem releaseMeshes_allNull (E : Env) (meshes : List (Mesh E.MeshData E.Handle)) :
    ∀ ctx : E.RenderContext, (∀ mesh ∈ meshes, mesh.allNull) →
      Model.releaseMeshes E ctx meshes = (ctx, meshes, []) := by
  induction meshes with
  | nil => intro ctx _; rfl
  | cons mesh rest ih =>
    intro ctx h
    have hm := releaseMesh_allNull E ctx mesh (h mesh (List.mem_cons_self _ _))
    have hr := ih ctx (fun x hx => h x (List.mem_cons_of_mem _ hx))
    simp [Model.releaseMeshes, hm, hr]

/-- C10: after `ReleaseResources` every mesh has its effect, index buffer, vertex
buffer and vertex declaration `NULL`; `Release` is applied exactly once to each handle
that was not `NULL` and to nothing else, mesh by mesh in the order effect, index
buffer, vertex buffer, vertex declaration: the context afterwards is the old one with
`Release` applied to these handles in turn, and the calls recorded are these and no
other; a second call right after releases nothing and returns the same model and
context; the number of meshes, their data, the skeleton, the animations and the pose
buffer are as before. -/
theorem ReleaseResources_spec (E : Env) (m : Model E) (ctx : E.RenderContext) :
    (∀ mesh ∈ (Model.ReleaseResources E m ctx).1.mMeshes, mesh.allNull) ∧
    (Model.ReleaseResources E m ctx).2.1 = (heldHandles m.mMeshes).foldl E.release ctx ∧
    (Model.ReleaseResources E m ctx).2.2 = (heldHandles m.mMeshes).map Call.release ∧
    Model.ReleaseResources E (Model.ReleaseResources E m ctx).1
        (Model.ReleaseResources E m ctx).2.1
      = ((Model.ReleaseResources E m ctx).1, (Model.ReleaseResources E m ctx).2.1, []) ∧
    (Model.ReleaseResources E m ctx).1.mMeshes.length = m.mMeshes.length ∧
    (Model.ReleaseResources E m ctx).1.mMeshes.map (fun x => x.Data)
      = m.mMeshes.map (fun x => x.Data) ∧
    (Model.ReleaseResources E m ctx).1.mSkeleton = m.mSkeleton ∧
    (Model.ReleaseResources E m ctx).1.mAnimations = m.mAnimations ∧
    (Model.ReleaseResources E m ctx).1.mPoseBuffer = m.mPoseBuffer := by
  obtain ⟨h1, h2, h3, h4⟩ := releaseMeshes_spec E m.mMeshes ctx
  refine ⟨h1, releaseMeshes_context E m.mMeshes ctx, h4, ?_, h2, h3, rfl, rfl, rfl⟩
  simp only [Model.ReleaseResources]
  rw [releaseMeshes_allNull E _ _ h1]

/-- The two meshes of `demoMeshModel` hold five handles; they are released in the
order effect, index buffer, vertex buffer, vertex declaration, which moves the
counter of `demoEnv` from `0` to `100 * (14 + 12 + 11 + 23 + 22)`, and a second call
leaves it there. -/
theorem ReleaseResources_demo :
    (Model.ReleaseResources (demoEnv 2) demoMeshModel (0 : Nat)).2.2
      = [Call.release 13, Call.release 11, Call.release 10,
         Call.release 22, Call.release 21] ∧
    (Model.ReleaseResources (demoEnv 2) demoMeshModel (0 : Nat)).2.1 = (8200 : Nat) ∧
    (Model.ReleaseResources (demoEnv 2)
      (Model.ReleaseResources (demoEnv 2) demoMeshModel (0 : Nat)).1 (8200 : Nat)).2.1
      = (8200 : Nat) ∧
    (Model.ReleaseResources (demoEnv 2) demoMeshModel (0 : Nat)).1.mMeshes
      = [{ Data := 7, mVertexDeclaration := none, mVertexBuffer := none,
           mIndexBuffer := none, mEffect := none },
         { Data := 8, mVertexDeclaration := none, mVertexBuffer := none,
           mIndexBuffer := none, mEffect := none }] :=
  ⟨rfl, rfl, rfl, rfl⟩

/-! ## The root transform -/

theorem memcpyMatrix_floats {F : Type} (root : MathMatrix F) :
    (memcpyMatrix root).floats = root.floats := rfl

theorem memcpyMatrix_get {F : Type} (root : MathMatrix F) (r c : Fin 4) :
    (memcpyMatrix root).get r c = root.get r c := by
  fin_cases r <;> fin_cases c <;> rfl

theorem Transpose_get {F : Type} (m : AiMatrix4x4 F) (r c : Fin 4) :
    m.Transpose.get r c = m.get c r := by
  fin_cases r <;> fin_cases c <;> rfl

/-- C7: `SetRoot(root)` makes one call on the skeleton, `setLocalTransform(0, M)`, where
`M` is the transpose of the matrix that holds the sixteen values of `root` in storage
order, so `M[r][c] = root[c][r]`.  For every reading `getLocal` of local transforms
under which `setLocalTransform(0, .)` on this skeleton replaces the transform of bone
`0` and of no other bone, the local transform of bone `0` is `M` afterwards and that
of every other bone is as before.  The pose buffer, the animations and the meshes are
unchanged. -/
theorem SetRoot_spec (E : Env) (m : Model E) (root : MathMatrix E.Scalar)
    (getLocal : E.Skeleton → Nat → AiMatrix4x4 E.Scalar)
    (hset : ∀ (M : AiMatrix4x4 E.Scalar) (j : Nat),
      getLocal (E.setLocalTransform m.mSkeleton 0 M) j
        = if j = 0 then M else getLocal m.mSkeleton j) :
    ∃ M : AiMatrix4x4 E.Scalar,
      M = (memcpyMatrix root).Transpose ∧
      (memcpyMatrix root).floats = root.floats ∧
      (∀ r c : Fin 4, M.get r c = root.get c r) ∧
      (Model.SetRoot E m root).2 = [Call.setLocalTransform 0 M] ∧
      (Model.SetRoot E m root).1.mSkeleton = E.setLocalTransform m.mSkeleton 0 M ∧
      getLocal (Model.SetRoot E m root).1.mSkeleton 0 = M ∧
      (∀ j, j ≠ 0 →
        getLocal (Model.SetRoot E m root).1.mSkeleton j = getLocal m.mSkeleton j) ∧
      (Model.SetRoot E m root).1.mPoseBuffer = m.mPoseBuffer ∧
      (Model.SetRoot E m root).1.mAnimations = m.mAnimations ∧
      (Model.SetRoot E m root).1.mMeshes = m.mMeshes := by
  refine ⟨(memcpyMatrix root).Transpose, rfl, rfl, ?_, rfl, rfl, ?_, ?_, rfl, rfl, rfl⟩
  · intro r c
    rw [Transpose_get, memcpyMatrix_get]
  · simp [Model.SetRoot, hset]
  · intro j hj
    simp [Model.SetRoot, hset, hj]

/-- The theorem of C7 at a skeleton of two bones in `demoEnv 2`, where a skeleton is
the list of its local transforms. -/
theorem SetRoot_spec_witness :
    ∃ M : AiMatrix4x4 Int,
      M = (memcpyMatrix demoRoot).Transpose ∧
      (memcpyMatrix demoRoot).floats = demoRoot.floats ∧
      (∀ r c : Fin 4, M.get r c = demoRoot.get c r) ∧
      (Model.SetRoot (demoEnv 2) demoTwoBones demoRoot).2 = [Call.setLocalTransform 0 M] ∧
      (Model.SetRoot (demoEnv 2) demoTwoBones demoRoot).1.mSkeleton
        = [M, demoIdentity] ∧
      (Model.SetRoot (demoEnv 2) demoTwoBones demoRoot).1.mSkeleton.getD 0 demoIdentity
        = M ∧
      (∀ j, j ≠ 0 →
        (Model.SetRoot (demoEnv 2) demoTwoBones demoRoot).1.mSkeleton.getD j demoIdentity
          = demoTwoBones.mSkeleton.getD j demoIdentity) ∧
      (Model.SetRoot (demoEnv 2) demoTwoBones demoRoot).1.mPoseBuffer
        = demoTwoBones.mPoseBuffer ∧
      (Model.SetRoot (demoEnv 2) demoTwoBones demoRoot).1.mAnimations
        = demoTwoBones.mAnimations ∧
      (Model.SetRoot (demoEnv 2) demoTwoBones demoRoot).1.mMeshes
        = demoTwoBones.mMeshes :=
  SetRoot_spec (demoEnv 2) demoTwoBones demoRoot (fun s j => s.getD j demoIdentity)
    (by
      intro M j
      rcases j with _ | _ | j <;> rfl)

/-! ## The length of the pose buffer -/

theorem copyPose_length (E : Env) (skel : E.Skeleton) (k : Nat) :
    ∀ (i : Nat) (buf : List E.Transform) (r : List E.Transform × List (Call E)),
      Model.copyPose E skel k i buf = some r → r.1.length = buf.length := by
  induction k with
  | zero =>
    intro i buf r h
    simp only [Model.copyPose, Option.some.injEq] at h
    rw [← h]
  | succ k ih =>
    intro i buf r h
    by_cases hi : i < buf.length
    · simp only [Model.copyPose, hi, if_true, Option.map_eq_some'] at h
      obtain ⟨q, hq, hr⟩ := h
      have := ih (i + 1) _ q hq
      rw [← hr]
      simpa using this
    · simp [Model.copyPose, hi] at h

theorem Update_length (E : Env) (m : Model E) (dt : E.Scalar)
    (r : Model E × List (Call E)) (h : Model.Update E m dt = some r) :
    r.1.mPoseBuffer.length = m.mPoseBuffer.length := by
  unfold Model.Update at h
  split at h
  · cases h
  · rename_i a rest _
    simp only at h
    split at h
    · cases h
    · rename_i buf calls hc
      cases h
      exact copyPose_length E _ _ _ _ _ hc

theorem Render_model (E : Env) (m : Model E) (ctx : E.RenderContext)
    (r : Model E × E.RenderContext × List (Call E)) (h : Model.Render E m ctx = some r) :
    r.1 = m := by
  unfold Model.Render at h
  split at h
  · cases h
  · rw [Option.map_eq_some'] at h
    obtain ⟨c, _, hr⟩ := h
    rw [← hr]

theorem load_poseBuffer (E : Env) (m : Model E) (ctx : E.RenderContext)
    (r : Bool × Model E × E.RenderContext × List (Call E))
    (h : Model.load E m ctx = some r) :
    r.2.1.mPoseBuffer = m.mPoseBuffer := by
  unfold Model.load at h
  split at h
  · cases h; rfl
  · split at h
    · cases h
    · split at h
      · cases h
      · split at h
        · cases h
        · split at h
          · cases h
          · rename_i q hq
            cases h
            exact (AcquireResources_fields E _ ctx q hq).2.2

theorem Reachable_length (E : Env) (m : Model E) (h : Model.Reachable E m) :
    m.mPoseBuffer.length = E.MAX_BONES_PER_MESH := by
  induction h with
  | new fileName => simp [Model.new]
  | SetRoot m root _ ih => exact ih
  | load m ctx r _ hr ih => rw [load_poseBuffer E m ctx r hr]; exact ih
  | Update m dt r _ hr ih => rw [Update_length E m dt r hr]; exact ih
  | Render m ctx r _ hr ih => rw [Render_model E m ctx r hr]; exact ih
  | AcquireResources m ctx r _ hr ih =>
    rw [(AcquireResources_fields E m ctx r hr).2.2]; exact ih
  | ReleaseResources m ctx _ ih => exact ih

/-- C8: every model reachable from the constructor by `SetRoot`, `load`, `Update`,
`Render`, `AcquireResources` and `ReleaseResources` has a pose buffer of exactly
`MAX_BONES_PER_MESH` entries.  Hence, when its animation list is not empty and its
skeleton has at most `MAX_BONES_PER_MESH` bones (a count the pose evaluation keeps),
`Update` returns a result, every index passed through the copy loop is below the
length of the buffer, the buffer keeps its length, and the `getBoneCount()` entries
that `Render` uploads are the first entries of the buffer, all inside it. -/
theorem poseBuffer_length_invariant (E : Env) (m : Model E) (h : Model.Reachable E m) :
    m.mPoseBuffer.length = E.MAX_BONES_PER_MESH ∧
    (∀ (dt : E.Scalar) (a : E.Animation) (rest : List E.Animation),
      m.mAnimations = a :: rest →
      E.getBoneCount m.mSkeleton ≤ E.MAX_BONES_PER_MESH →
      E.getBoneCount (E.evaluatePose (E.animationUpdate a dt) m.mSkeleton)
        = E.getBoneCount m.mSkeleton →
      ∃ r, Model.Update E m dt = some r ∧
        r.1.mPoseBuffer.length = E.MAX_BONES_PER_MESH ∧
        (∀ i, Call.getWorldTransform i ∈ r.2 →
          i < E.getBoneCount m.mSkeleton ∧ i < m.mPoseBuffer.length)) ∧
    (E.getBoneCount m.mSkeleton ≤ E.MAX_BONES_PER_MESH →
      poseUpload m.mPoseBuffer (E.getBoneCount m.mSkeleton)
        = some (m.mPoseBuffer.take (E.getBoneCount m.mSkeleton)) ∧
      (m.mPoseBuffer.take (E.getBoneCount m.mSkeleton)).length
        = E.getBoneCount m.mSkeleton) := by
  have hlen := Reachable_length E m h
  refine ⟨hlen, ?_, ?_⟩
  · intro dt a rest hanim hn hkeep
    obtain ⟨out, h1, h2, _, _⟩ := Update_eq_some E m dt a rest hanim (by omega)
    refine ⟨_, h1, by simpa [hlen] using h2, ?_⟩
    intro i hi
    simp only [List.mem_cons, reduceCtorEq, false_or] at hi
    have := mem_copyCalls_index E _ 0 i hi
    omega
  · intro hn
    have hle : E.getBoneCount m.mSkeleton ≤ m.mPoseBuffer.length := by omega
    exact ⟨by simp [poseUpload, hle], by simp [hle]⟩

/-- The theorem of C8 at the model of `demoEnv 4` loaded from a scene of three
bones. -/
theorem poseBuffer_length_invariant_witness :
    demoLoaded.mPoseBuffer.length = 4 ∧
    (∀ (dt : Int) (a : Int) (rest : List Int),
      demoLoaded.mAnimations = a :: rest →
      (demoEnv 4).getBoneCount demoLoaded.mSkeleton ≤ 4 →
      (demoEnv 4).getBoneCount
          ((demoEnv 4).evaluatePose ((demoEnv 4).animationUpdate a dt) demoLoaded.mSkeleton)
        = (demoEnv 4).getBoneCount demoLoaded.mSkeleton →
      ∃ r, Model.Update (demoEnv 4) demoLoaded dt = some r ∧
        r.1.mPoseBuffer.length = 4 ∧
        (∀ i, Call.getWorldTransform i ∈ r.2 →
          i < (demoEnv 4).getBoneCount demoLoaded.mSkeleton ∧
          i < demoLoaded.mPoseBuffer.length)) ∧
    ((demoEnv 4).getBoneCount demoLoaded.mSkeleton ≤ 4 →
      poseUpload demoLoaded.mPoseBuffer ((demoEnv 4).getBoneCount demoLoaded.mSkeleton)
        = some (demoLoaded.mPoseBuffer.take
            ((demoEnv 4).getBoneCount demoLoaded.mSkeleton)) ∧
      (demoLoaded.mPoseBuffer.take ((demoEnv 4).getBoneCount demoLoaded.mSkeleton)).length
        = (demoEnv 4).getBoneCount demoLoaded.mSkeleton) :=
  poseBuffer_length_invariant (demoEnv 4) demoLoaded
    (Model.Reachable.load (Model.new (demoEnv 4) "abc") (0 : Nat)
      (true, demoLoaded, (4 : Nat),
        [Call.readFile "abc", Call.buildSkeleton, Call.buildAnimations, Call.buildMeshes,
         Call.createVertexDeclaration, Call.createVertexBuffer, Call.fillVertexBuffer,
         Call.createIndexBuffer, Call.fillIndexBuffer, Call.createEffectFromFile])
      (Model.Reachable.new "abc") rfl)

/-- The loaded model of `demoEnv 4` runs through `Update` and `Render`: three bones
are copied, a fourth entry stays, and `Render` uploads the first three entries. -/
theorem demoLoaded_frame :
    (Model.Update (demoEnv 4) demoLoaded (2 : Int)).map (fun r => r.1.mPoseBuffer)
      = some [{ demoIdentity with a4 := 2 }, { demoIdentity with a4 := 2 },
              { demoIdentity with a4 := 2 }, demoIdentity] ∧
    (Model.Render (demoEnv 4) demoLoaded (9 : Nat)).map (fun r => r.2.2)
      = some [Call.setRenderStates, Call.getBoneCount,
              Call.setBoneTransforms [demoIdentity, demoIdentity, demoIdentity],
              Call.drawMesh, Call.resetStreams] :=
  ⟨rfl, rfl⟩

/-! ## Camera -/

theorem Vector.ext_iff3 {R : Type} (a b : Vector R) :
    a = b ↔ a.x = b.x ∧ a.y = b.y ∧ a.z = b.z := by
  cases a; cases b; simp

theorem keyTest_eq (k : Nat) : (k &&& KEY_DOWN ≠ 0) ↔ keyIsDown k = true := by
  simp [keyIsDown, KEY_DOWN]

/-- The result of `update` over any field, in terms of the new angles `A` and `Z`: the
strafe and move factors are read off the four key states. -/
theorem Camera_update_eq {R View : Type} [Field R] (cos sin : R → R)
    (LookAt : Vector R → Vector R → Vector R → View)
    (cam : Camera R View) (input : Input R) (dt A Z : R)
    (hA : cam.mAzimuth + -input.mouseX * dt * ROTATION_SPEED = A)
    (hZ : cam.mZenith + input.mouseY * dt * ROTATION_SPEED = Z) :
    (Camera.update cos sin LookAt cam input dt).mAzimuth = A ∧
    (Camera.update cos sin LookAt cam input dt).mZenith = Z ∧
    (Camera.update cos sin LookAt cam input dt).mPosition
      = cam.mPosition.add
          (Vector.add
            ((((Camera.forward cos sin A Z).Cross (Camera.up cos sin A Z)).Scale
              (strafeSign (keyIsDown input.keyLeft) (keyIsDown input.keyRight))).Scale
              (dt * MOVEMENT_SPEED))
            (((Camera.forward cos sin A Z).Scale
              (strafeSign (keyIsDown input.keyUp) (keyIsDown input.keyDown))).Scale
              (dt * MOVEMENT_SPEED))) ∧
    (Camera.update cos sin LookAt cam input dt).mView
      = LookAt (Camera.update cos sin LookAt cam input dt).mPosition
          ((Camera.update cos sin LookAt cam input dt).mPosition.add
            (Camera.forward cos sin A Z))
          (Camera.up cos sin A Z) := by
  subst hA hZ
  refine ⟨rfl, rfl, ?_, rfl⟩
  simp only [Camera.update, strafeSign, keyTest_eq]

theorem rotation_step (A mx dt : ℝ) :
    A + -mx * dt * (ROTATION_SPEED : ℝ) = A - mx * dt * 1.5 := by
  simp only [ROTATION_SPEED]; ring

theorem rotation_step_add (Z my dt : ℝ) :
    Z + my * dt * (ROTATION_SPEED : ℝ) = Z + my * dt * 1.5 := by
  simp only [ROTATION_SPEED]

/-- C6: over the reals, `update(dt)` with mouse delta `(mx, my)` takes the azimuth `A`
to `A - mx*dt*1.5`, the zenith `Z` to `Z + my*dt*1.5` and the position `P` to
`P + left*strafe*dt*1.0 + forward*move*dt*1.0`, with
`forward = (cos A sin Z, cos Z, sin A sin Z)`, `up = (-cos A cos Z, sin Z, -sin A cos Z)`
and `left = forward x up` taken at the new angles, `strafe` being `+1` when the left
key is down, `-1` when only the right key is down and `0` otherwise, and `move` the
same for the up and down keys; the view matrix is `LookAt(P, P + forward, up)` at the
new position. -/
theorem Camera_update_spec {View : Type}
    (LookAt : Vector ℝ → Vector ℝ → Vector ℝ → View)
    (cam : Camera ℝ View) (input : Input ℝ) (dt : ℝ) :
    let A := cam.mAzimuth - input.mouseX * dt * 1.5
    let Z := cam.mZenith + input.mouseY * dt * 1.5
    let forward : Vector ℝ :=
      { x := Real.cos A * Real.sin Z, y := Real.cos Z, z := Real.sin A * Real.sin Z }
    let up : Vector ℝ :=
      { x := -Real.cos A * Real.cos Z, y := Real.sin Z, z := -Real.sin A * Real.cos Z }
    let left : Vector ℝ := forward.Cross up
    let strafe : ℝ := strafeSign (keyIsDown input.keyLeft) (keyIsDown input.keyRight)
    let move : ℝ := strafeSign (keyIsDown input.keyUp) (keyIsDown input.keyDown)
    let P : Vector ℝ :=
      { x := cam.mPosition.x + left.x * strafe * dt * 1.0 + forward.x * move * dt * 1.0
        y := cam.mPosition.y + left.y * strafe * dt * 1.0 + forward.y * move * dt * 1.0
        z := cam.mPosition.z + left.z * strafe * dt * 1.0 + forward.z * move * dt * 1.0 }
    (Camera.update Real.cos Real.sin LookAt cam input dt).mAzimuth = A ∧
    (Camera.update Real.cos Real.sin LookAt cam input dt).mZenith = Z ∧
    (Camera.update Real.cos Real.sin LookAt cam input dt).mPosition = P ∧
    (Camera.update Real.cos Real.sin LookAt cam input dt).mView
      = LookAt P (P.add forward) up ∧
    (Camera.update Real.cos Real.sin LookAt cam input dt).mProjection
      = cam.mProjection := by
  intro A Z forward up left strafe move P
  obtain ⟨h1, h2, h3, h4⟩ := Camera_update_eq Real.cos Real.sin LookAt cam input dt A Z
    (rotation_step _ _ _) (rotation_step_add _ _ _)
  have hP : (Camera.update Real.cos Real.sin LookAt cam input dt).mPosition = P := by
    rw [h3, Vector.ext_iff3]
    simp only [Vector.add, Vector.Scale, MOVEMENT_SPEED, P, left, forward, up, strafe, move,
      Camera.forward, Camera.up]
    refine ⟨?_, ?_, ?_⟩ <;> norm_num <;> ring
  refine ⟨h1, h2, hP, ?_, rfl⟩
  rw [h4, hP]
  rfl

/-- The left vector is `(-sin A, 0, cos A)` whenever cosine and sine satisfy the
Pythagorean identity at `Z`. -/
theorem left_eq {R : Type} [Field R] (cos sin : R → R) (A Z : R)
    (hZ : sin Z ^ 2 + cos Z ^ 2 = 1) :
    (Camera.forward cos sin A Z).Cross (Camera.up cos sin A Z)
      = { x := -sin A, y := 0, z := cos A } := by
  rw [Vector.ext_iff3]
  simp only [Camera.forward, Camera.up, Vector.Cross]
  refine ⟨?_, ?_, ?_⟩
  · linear_combination (-sin A) * hZ
  · ring
  · linear_combination (cos A) * hZ

/-- C9: over the reals, for all angles `A` and `Z`, `forward` and `up` have length `1`
and are orthogonal, and `left = forward x up` is `(-sin A, 0, cos A)`, of length `1`
and with `y` equal to `0`; hence a step of `update` in which neither the up key nor
the down key is down leaves the `y` coordinate of the position as it was. -/
theorem Camera_basis_orthonormal (A Z : ℝ) :
    (Camera.forward Real.cos Real.sin A Z).dot (Camera.forward Real.cos Real.sin A Z) = 1 ∧
    (Camera.up Real.cos Real.sin A Z).dot (Camera.up Real.cos Real.sin A Z) = 1 ∧
    (Camera.forward Real.cos Real.sin A Z).dot (Camera.up Real.cos Real.sin A Z) = 0 ∧
    (Camera.forward Real.cos Real.sin A Z).Cross (Camera.up Real.cos Real.sin A Z)
      = { x := -Real.sin A, y := 0, z := Real.cos A } ∧
    ((Camera.forward Real.cos Real.sin A Z).Cross (Camera.up Real.cos Real.sin A Z)).dot
      ((Camera.forward Real.cos Real.sin A Z).Cross (Camera.up Real.cos Real.sin A Z)) = 1 ∧
    ((Camera.forward Real.cos Real.sin A Z).Cross (Camera.up Real.cos Real.sin A Z)).y = 0 ∧
    (∀ (View : Type) (LookAt : Vector ℝ → Vector ℝ → Vector ℝ → View)
      (cam : Camera ℝ View) (input : Input ℝ) (dt : ℝ),
      keyIsDown input.keyUp = false → keyIsDown input.keyDown = false →
      (Camera.update Real.cos Real.sin LookAt cam input dt).mPosition.y
        = cam.mPosition.y) := by
  have hA : Real.sin A ^ 2 + Real.cos A ^ 2 = 1 := Real.sin_sq_add_cos_sq A
  have hZ : Real.sin Z ^ 2 + Real.cos Z ^ 2 = 1 := Real.sin_sq_add_cos_sq Z
  have hl := left_eq Real.cos Real.sin A Z hZ
  refine ⟨?_, ?_, ?_, hl, ?_, ?_, ?_⟩
  · simp only [Camera.forward, Vector.dot]
    linear_combination (Real.sin Z ^ 2) * hA + hZ
  · simp only [Camera.up, Vector.dot]
    linear_combination (Real.cos Z ^ 2) * hA + hZ
  · simp only [Camera.forward, Camera.up, Vector.dot]
    linear_combination (-(Real.sin Z * Real.cos Z)) * hA
  · rw [hl]
    simp only [Vector.dot]
    linear_combination hA
  · rw [hl]
  · intro View LookAt cam input dt hup hdown
    obtain ⟨_, _, h3, _⟩ := Camera_update_eq Real.cos Real.sin LookAt cam input dt _ _ rfl rfl
    rw [h3, left_eq Real.cos Real.sin _ _ (Real.sin_sq_add_cos_sq _)]
    simp [Vector.add, Vector.Scale, strafeSign, hup, hdown]

/-- The theorem of C9 at the angles `0`, `0` and a step with only the left key down
(its high bit set): the height of the camera stays `3`. -/
theorem Camera_basis_orthonormal_witness :
    keyIsDown 0 = false ∧
    (Camera.update Real.cos Real.sin (fun _ _ _ => ())
      { mAzimuth := 0, mZenith := 0, mPosition := { x := 1, y := 3, z := 2 },
        mView := (), mProjection := () }
      { mouseX := 0, mouseY := 0, keyUp := 0, keyDown := 0, keyLeft := 0x8000,
        keyRight := 0 } 1).mPosition.y = 3 :=
  ⟨by decide,
   (Camera_basis_orthonormal 0 0).2.2.2.2.2.2 Unit (fun _ _ _ => ())
     { mAzimuth := 0, mZenith := 0, mPosition := { x := 1, y := 3, z := 2 },
       mView := (), mProjection := () }
     { mouseX := 0, mouseY := 0, keyUp := 0, keyDown := 0, keyLeft := 0x8000,
       keyRight := 0 } 1 (by decide) (by decide)⟩

/-- The method runs on rationals: with stand-ins `cos = 0`, `sin = 1` (both angles a
quarter turn), no mouse motion and the left key down for a step of `2`, the camera
moves by `2` along `-x`. -/
theorem Camera_update_demo :
    (Camera.update (fun _ => (0 : ℚ)) (fun _ => (1 : ℚ)) (fun _ _ _ => ())
      { mAzimuth := 0, mZenith := 0, mPosition := { x := 1, y := 3, z := 2 },
        mView := (), mProjection := () }
      { mouseX := 0, mouseY := 0, keyUp := 0, keyDown := 0, keyLeft := 0x8000,
        keyRight := 1 } 2).mPosition = { x := -1, y := 3, z := 2 } := by
  rw [Vector.ext_iff3]
  simp only [Camera.update, Camera.forward, Camera.up, Vector.add, Vector.Scale,
    Vector.Cross, KEY_DOWN, MOVEMENT_SPEED]
  norm_num

end Anima
